import Mathlib

/-!
Verification of the claim-winnings reconciliation engine of the Eliza
prediction-market plugin (src/actions/claimWinningsAction.ts).

Shallow embedding conventions:
* GraphQL decimal-string integer amounts (totalCollateral and the party
  stakes) are converted in the source with BigInt(s), an exact
  arbitrary-precision parse; they are modelled as exact Lean Int values.
  A nullable amount is an Option Int; the source expression
  BigInt(x || "0") maps null to zero, modelled by Option.getD 0
  (BigInt of the empty string is also zero, so the two coincide).
* JavaScript truthiness of an optional string field (used by the
  summary filters r.txHash and r.error, and by the market-name fallback
  chain with the || operator) is modelled by truthyStr: none and the
  empty string are falsy.
* The network boundary (GraphQL page fetch, transaction submission) is
  modelled by oracle functions passed in as arguments: a page oracle
  from the skip offset to the returned page, and a submit oracle from a
  claim entry to Except error txHash, mirroring the try/catch around
  submitTransaction.
* The summary models the structured content object built at the end of
  the handler (claimableCount, winningCount, losingCount,
  successfulClaims, failedClaims, totalWinnings, results). The source
  applies formatEther to the bigint winnings for display; totalWinnings
  is modelled as the exact integer before that formatting step.
-/

/-- Nested condition object of a prediction leg (interface ConditionInfo). -/
structure ConditionInfo where
  id : String
  question : Option String
  shortName : Option String
  endTime : Option Int
  resolver : Option String
  settled : Bool
  resolvedToYes : Bool
  deriving Repr, DecidableEq

/-- One leg of a position (interface PredictionInfo); the nested
condition may be absent (null). -/
structure PredictionInfo where
  conditionId : String
  outcomeYes : Bool
  chainId : Option Int
  condition : Option ConditionInfo
  deriving Repr, DecidableEq

/-- A two-party stake position (interface ClaimablePosition).
Collateral amounts are decimal strings in the source, parsed exactly
with BigInt; modelled as Int (nullable ones as Option Int). -/
structure ClaimablePosition where
  id : Nat
  chainId : Nat
  marketAddress : String
  predictor : String
  counterparty : String
  predictorNftTokenId : String
  counterpartyNftTokenId : String
  totalCollateral : Int
  predictorCollateral : Option Int
  counterpartyCollateral : Option Int
  refCode : Option String
  status : String
  predictorWon : Option Bool
  settledAt : Option Int
  predictions : List PredictionInfo
  deriving Repr, DecidableEq

/-- Models the JavaScript toLowerCase call on an address string,
character by character (addresses are ASCII hex strings, where the two
functions agree). -/
def toLowerCase (s : String) : String :=
  String.mk (s.data.map Char.toLower)

/-- areAllConditionsSettled: every leg has a present condition with
settled true; a position with no legs returns false. -/
def areAllConditionsSettled (position : ClaimablePosition) : Bool :=
  if position.predictions.isEmpty then
    false
  else
    position.predictions.all fun pred =>
      match pred.condition with
      | some c => c.settled
      | none => false

/-- didPredictorWin: every leg has a present, settled condition whose
resolved outcome equals the predicted outcome; no legs returns false. -/
def didPredictorWin (position : ClaimablePosition) : Bool :=
  if position.predictions.isEmpty then
    false
  else
    position.predictions.all fun pred =>
      match pred.condition with
      | some c => c.settled && (pred.outcomeYes == c.resolvedToYes)
      | none => false

/-- JavaScript truthiness of an optional string: null / undefined and
the empty string are falsy. -/
def truthyStr : Option String → Bool
  | none => false
  | some s => !s.isEmpty

/-- The market display label: first leg shortName if truthy, else the
first 50 characters of the first leg question if truthy, else a
fallback from the position id (the || chain in getClaimableInfo). -/
def marketNameOf (position : ClaimablePosition) : String :=
  let cond := position.predictions.head?.bind (fun pred => pred.condition)
  let short := cond.bind (fun c => c.shortName)
  if truthyStr short then
    short.getD ""
  else
    let sliced := (cond.bind (fun c => c.question)).map (fun q => q.take 50)
    if truthyStr sliced then
      sliced.getD ""
    else
      "Position #" ++ toString position.id

/-- Result record of getClaimableInfo. -/
structure ClaimableInfo where
  tokenId : String
  isWinner : Bool
  winnings : Int
  marketName : String
  deriving Repr, DecidableEq

/-- getClaimableInfo: gate on caller address (case-insensitive match of
either party), status "active", and all conditions settled; then decide
the winner side and the net winnings. -/
def getClaimableInfo (position : ClaimablePosition) (walletAddress : String) :
    Option ClaimableInfo :=
  let addr := toLowerCase walletAddress
  let isPredictor := toLowerCase position.predictor == addr
  let isCounterparty := toLowerCase position.counterparty == addr
  if !isPredictor && !isCounterparty then
    none
  else if position.status != "active" then
    none
  else if !areAllConditionsSettled position then
    none
  else
    let predictorWon := didPredictorWin position
    let isWinner := (isPredictor && predictorWon) || (isCounterparty && !predictorWon)
    let totalCollateral := position.totalCollateral
    let userCollateral :=
      if isPredictor then position.predictorCollateral.getD 0
      else position.counterpartyCollateral.getD 0
    let winnings := if isWinner then totalCollateral - userCollateral else 0
    let tokenId :=
      if isPredictor then position.predictorNftTokenId
      else position.counterpartyNftTokenId
    some { tokenId := tokenId, isWinner := isWinner, winnings := winnings,
           marketName := marketNameOf position }

/-- Fixed page size of the settlement reader. -/
def PAGE_SIZE : Nat := 100

/-- The paging loop of the handler: request the page at the current skip
offset, accumulate it, stop when the page is shorter than PAGE_SIZE,
otherwise advance skip by PAGE_SIZE. The fuel argument bounds the
number of requests so the function is total; the loop in the source has
no such bound. Returns the accumulated positions and the number of
requests issued. -/
def fetchPagesLoop (getPage : Nat → List ClaimablePosition) :
    Nat → Nat → List ClaimablePosition × Nat
  | 0, _ => ([], 0)
  | fuel + 1, skip =>
    let page := getPage skip
    if page.length < PAGE_SIZE then
      (page, 1)
    else
      let rest := fetchPagesLoop getPage fuel (skip + PAGE_SIZE)
      (page ++ rest.1, rest.2 + 1)

/-- The full paginated read, starting at skip = 0. -/
def fetchAllPositions (getPage : Nat → List ClaimablePosition) (fuel : Nat) :
    List ClaimablePosition × Nat :=
  fetchPagesLoop getPage fuel 0

/-- A page oracle backed by a finite list of pages: the request at skip
offset k * PAGE_SIZE answers page k, and an exhausted index answers the
empty page. -/
def pagesAt (pages : List (List ClaimablePosition)) (skip : Nat) :
    List ClaimablePosition :=
  (pages.getD (skip / PAGE_SIZE) [])

/-- One entry of the claimablePositions array built in the handler. -/
structure ClaimEntry where
  position : ClaimablePosition
  tokenId : String
  isWinner : Bool
  winnings : Int
  marketName : String
  deriving Repr, DecidableEq

/-- The filtering loop of the handler: keep each position whose
getClaimableInfo is present, as a ClaimEntry. -/
def collectClaimable (positions : List ClaimablePosition) (walletAddress : String) :
    List ClaimEntry :=
  positions.filterMap fun position =>
    (getClaimableInfo position walletAddress).map fun info =>
      { position := position, tokenId := info.tokenId, isWinner := info.isWinner,
        winnings := info.winnings, marketName := info.marketName }

/-- Per-position outcome record pushed by the claim loop (the results
array): winnings is the exact integer before formatEther display
formatting; exactly the success branch sets txHash and exactly the
catch branch sets error. -/
structure ClaimResult where
  tokenId : String
  marketName : String
  winnings : Int
  txHash : Option String
  error : Option String
  deriving Repr, DecidableEq

/-- Build the ClaimResult for one entry from the submission outcome:
ok tx gives a txHash record, an exception gives an error record. -/
def mkClaimResult (e : ClaimEntry) (outcome : Except String String) : ClaimResult :=
  match outcome with
  | Except.ok tx =>
    { tokenId := e.tokenId, marketName := e.marketName, winnings := e.winnings,
      txHash := some tx, error := none }
  | Except.error msg =>
    { tokenId := e.tokenId, marketName := e.marketName, winnings := e.winnings,
      txHash := none, error := some msg }

/-- The sequential claim loop over the winning positions: each
iteration submits one claim and records one result; a failure is caught
locally and the loop continues. -/
def runClaims (submit : ClaimEntry → Except String String) :
    List ClaimEntry → List ClaimResult
  | [] => []
  | e :: rest => mkClaimResult e (submit e) :: runClaims submit rest

/-- The structured summary content built at the end of the handler. -/
structure ClaimSummary where
  success : Bool
  claimableCount : Nat
  winningCount : Nat
  losingCount : Nat
  successfulClaims : Nat
  failedClaims : Nat
  totalWinnings : Int
  results : List ClaimResult
  deriving Repr, DecidableEq

/-- The aggregation stage of the handler (lines separating winners from
losers through the final callback content): totalWinnings is reduced
over all winning entries before the claim loop runs; successfulClaims
and failedClaims count results with a truthy txHash and a truthy error
respectively. -/
def buildClaimSummary (claimablePositions : List ClaimEntry)
    (submit : ClaimEntry → Except String String) : ClaimSummary :=
  let winningPositions := claimablePositions.filter (fun p => p.isWinner)
  let losingPositions := claimablePositions.filter (fun p => !p.isWinner)
  let totalWinnings := winningPositions.foldl (fun sum p => sum + p.winnings) 0
  let results := runClaims submit winningPositions
  let successfulClaims := results.filter (fun r => truthyStr r.txHash)
  let failedClaims := results.filter (fun r => truthyStr r.error)
  { success := successfulClaims.length > 0,
    claimableCount := claimablePositions.length,
    winningCount := winningPositions.length,
    losingCount := losingPositions.length,
    successfulClaims := successfulClaims.length,
    failedClaims := failedClaims.length,
    totalWinnings := totalWinnings,
    results := results }

/-- Outcome classifiers for the submit oracle matching the truthiness
filters of the summary: a success with a nonempty transaction hash, a
failure with a nonempty message. -/
def isOkTruthy : Except String String → Bool
  | Except.ok tx => !tx.isEmpty
  | Except.error _ => false

/-- Failure with a nonempty message, matching the truthy error filter. -/
def isErrTruthy : Except String String → Bool
  | Except.ok _ => false
  | Except.error msg => !msg.isEmpty

/-! Concrete sample data used by the witness theorems. -/

/-- A settled condition resolved to yes. -/
def condSettledYes : ConditionInfo :=
  { id := "cond-1", question := some "Will BTC exceed 100k in December",
    shortName := some "BTC 100k", endTime := none, resolver := none,
    settled := true, resolvedToYes := true }

/-- A leg predicting yes on the settled yes condition (a match). -/
def legMatchYes : PredictionInfo :=
  { conditionId := "cond-1", outcomeYes := true, chainId := none,
    condition := some condSettledYes }

/-- A leg whose nested condition object is absent. -/
def legNoCondition : PredictionInfo :=
  { conditionId := "cond-2", outcomeYes := true, chainId := none,
    condition := none }

/-- Scenario A position: active, one matching settled leg, total
collateral 100, predictor stake 40, counterparty stake 60. -/
def scenarioAPos : ClaimablePosition :=
  { id := 1, chainId := 7, marketAddress := "0xmarket",
    predictor := "0xAAA", counterparty := "0xBBB",
    predictorNftTokenId := "11", counterpartyNftTokenId := "12",
    totalCollateral := 100, predictorCollateral := some 40,
    counterpartyCollateral := some 60, refCode := none,
    status := "active", predictorWon := none, settledAt := none,
    predictions := [legMatchYes] }

/-- A position with zero legs. -/
def emptyLegsPos : ClaimablePosition :=
  { scenarioAPos with id := 2, predictions := [] }

/-- A position with one leg missing its condition object. -/
def noCondPos : ClaimablePosition :=
  { scenarioAPos with id := 3, predictions := [legMatchYes, legNoCondition] }

/-- A position where both party addresses equal the caller address up
to case. -/
def selfMatchPos : ClaimablePosition :=
  { scenarioAPos with id := 4, predictor := "0xSame", counterparty := "0xsAME" }

/-- A winning claim entry with the given token id and winnings. -/
def winEntry (n : Nat) (amount : Int) : ClaimEntry :=
  { position := scenarioAPos, tokenId := toString n, isWinner := true,
    winnings := amount, marketName := "M" ++ toString n }

/-- Three winning entries with winnings 10, 20 and 40. -/
def threeWinners : List ClaimEntry :=
  [winEntry 1 10, winEntry 2 20, winEntry 3 40]

/-- A submit oracle that fails for token id 3 and succeeds otherwise. -/
def submitFailThird (e : ClaimEntry) : Except String String :=
  if e.tokenId == "3" then Except.error "execution reverted"
  else Except.ok ("0xhash" ++ e.tokenId)

/-! Theorems. -/

/-- C3: didPredictorWin is true exactly when the position has at least
one leg and every leg has a present, settled condition whose resolved
outcome equals the predicted outcome; a single mismatching or unsettled
leg (or an absent condition) makes it false. -/
theorem claim3_didPredictorWin_iff (p : ClaimablePosition) :
    didPredictorWin p = true ↔
      (p.predictions ≠ [] ∧ ∀ pred ∈ p.predictions, ∃ c,
        pred.condition = some c ∧ c.settled = true ∧
        pred.outcomeYes = c.resolvedToYes) := by
  unfold didPredictorWin
  cases hl : p.predictions with
  | nil => simp [hl]
  | cons a l =>
    simp only [List.isEmpty_cons, Bool.false_eq_true, if_false, List.all_eq_true,
      ne_eq, reduceCtorEq, not_false_eq_true, true_and]
    constructor
    · intro h pred hmem
      have hp := h pred hmem
      cases hc : pred.condition with
      | none => rw [hc] at hp; simp at hp
      | some c =>
        rw [hc] at hp
        simp only [Bool.and_eq_true, beq_iff_eq] at hp
        exact ⟨c, rfl, hp.1, hp.2⟩
    · intro h pred hmem
      obtain ⟨c, hc, hs, ho⟩ := h pred hmem
      rw [hc]
      simp [hs, ho]

/-- C6: a position with zero legs is never settled, never a predictor
win, and never claimable for any wallet address. -/
theorem claim6_zero_legs (p : ClaimablePosition) (w : String)
    (h : p.predictions = []) :
    areAllConditionsSettled p = false ∧ didPredictorWin p = false ∧
      getClaimableInfo p w = none := by
  have hA : areAllConditionsSettled p = false := by
    unfold areAllConditionsSettled; simp [h]
  have hW : didPredictorWin p = false := by
    unfold didPredictorWin; simp [h]
  refine ⟨hA, hW, ?_⟩
  unfold getClaimableInfo
  simp [hA]

/-- C6 witness at the concrete legless position. -/
theorem claim6_zero_legs_witness :
    areAllConditionsSettled emptyLegsPos = false ∧
      didPredictorWin emptyLegsPos = false ∧
      getClaimableInfo emptyLegsPos "0xaaa" = none :=
  claim6_zero_legs emptyLegsPos "0xaaa" rfl

/-- C9: a leg whose nested condition object is absent makes the
position unsettled and a predictor loss, and excludes it from the
claimable set for every wallet address; no error path exists, the
evaluators are total. -/
theorem claim9_missing_condition (p : ClaimablePosition) (w : String)
    (pred : PredictionInfo) (hmem : pred ∈ p.predictions)
    (hnone : pred.condition = none) :
    areAllConditionsSettled p = false ∧ didPredictorWin p = false ∧
      getClaimableInfo p w = none := by
  have hne : p.predictions.isEmpty = false := by
    cases hl : p.predictions with
    | nil => rw [hl] at hmem; simp at hmem
    | cons a l => rfl
  have hA : areAllConditionsSettled p = false := by
    unfold areAllConditionsSettled
    rw [hne]
    simp only [Bool.false_eq_true, if_false]
    cases hall : p.predictions.all fun pr =>
      match pr.condition with
      | some c => c.settled
      | none => false
    · rfl
    · have := List.all_eq_true.mp hall pred hmem
      rw [hnone] at this
      simp at this
  have hW : didPredictorWin p = false := by
    unfold didPredictorWin
    rw [hne]
    simp only [Bool.false_eq_true, if_false]
    cases hall : p.predictions.all fun pr =>
      match pr.condition with
      | some c => c.settled && (pr.outcomeYes == c.resolvedToYes)
      | none => false
    · rfl
    · have := List.all_eq_true.mp hall pred hmem
      rw [hnone] at this
      simp at this
  refine ⟨hA, hW, ?_⟩
  unfold getClaimableInfo
  simp [hA]

/-- C9 witness at the concrete position holding a condition-less leg. -/
theorem claim9_missing_condition_witness :
    areAllConditionsSettled noCondPos = false ∧
      didPredictorWin noCondPos = false ∧
      getClaimableInfo noCondPos "0xaaa" = none :=
  claim9_missing_condition noCondPos "0xaaa" legNoCondition
    (by decide) rfl

/-- Helper: full characterization of a successful getClaimableInfo
result in terms of the position fields. -/
theorem getClaimableInfo_some_spec (p : ClaimablePosition) (w : String)
    (info : ClaimableInfo) (h : getClaimableInfo p w = some info) :
    info.isWinner = ((toLowerCase p.predictor == toLowerCase w) && didPredictorWin p ||
      (toLowerCase p.counterparty == toLowerCase w) && !didPredictorWin p) ∧
    info.winnings = (if info.isWinner then
        p.totalCollateral - (if toLowerCase p.predictor == toLowerCase w then
          p.predictorCollateral.getD 0 else p.counterpartyCollateral.getD 0)
      else 0) ∧
    info.tokenId = (if toLowerCase p.predictor == toLowerCase w then
      p.predictorNftTokenId else p.counterpartyNftTokenId) ∧
    info.marketName = marketNameOf p := by
  unfold getClaimableInfo at h
  cases hP : toLowerCase p.predictor == toLowerCase w <;>
  cases hC : toLowerCase p.counterparty == toLowerCase w <;>
  cases hS : p.status == "active" <;>
  cases hA : areAllConditionsSettled p <;>
  simp_all [bne] <;>
  obtain ⟨rfl, rfl, rfl, rfl⟩ := h.symm <;>
  simp [hP, hC]

/-- C4: getClaimableInfo yields a value exactly when the wallet matches
one of the two party addresses case-insensitively, the status is
active, and all conditions are settled; the collection loop keeps
exactly the positions whose getClaimableInfo is present, so a gated-out
position is silently excluded rather than reported as an error. -/
theorem claim4_gating (p : ClaimablePosition) (w : String)
    (positions : List ClaimablePosition) :
    ((getClaimableInfo p w).isSome =
      ((toLowerCase p.predictor == toLowerCase w ||
        toLowerCase p.counterparty == toLowerCase w) &&
        (p.status == "active") && areAllConditionsSettled p))
    ∧ (collectClaimable positions w).all
        (fun e => (getClaimableInfo e.position w).isSome) = true := by
  constructor
  · unfold getClaimableInfo
    cases hP : toLowerCase p.predictor == toLowerCase w <;>
    cases hC : toLowerCase p.counterparty == toLowerCase w <;>
    cases hS : p.status == "active" <;>
    cases hA : areAllConditionsSettled p <;>
    simp [hP, hC, hS, hA, bne]
  · rw [List.all_eq_true]
    intro e he
    rw [collectClaimable, List.mem_filterMap] at he
    obtain ⟨pos, _, hmap⟩ := he
    obtain ⟨info, hinfo, hmk⟩ := Option.map_eq_some'.mp hmap
    rw [← hmk]
    simp [hinfo]


/-- C2: for a claimable position whose caller matches exactly one of
the two parties, the caller is the winner exactly by the (predictor and
predictor won) or (counterparty and predictor lost) rule; a winner
receives totalCollateral minus the caller own stake as an exact
integer, and a non-winner receives exactly zero. -/
theorem claim2_winner_winnings (p : ClaimablePosition) (w : String)
    (info : ClaimableInfo)
    (hsome : getClaimableInfo p w = some info)
    (_hone : ¬(toLowerCase p.predictor = toLowerCase w ∧
      toLowerCase p.counterparty = toLowerCase w)) :
    info.isWinner = ((toLowerCase p.predictor == toLowerCase w) && didPredictorWin p ||
      (toLowerCase p.counterparty == toLowerCase w) && !didPredictorWin p) ∧
    (info.isWinner = true →
      info.winnings = p.totalCollateral -
        (if toLowerCase p.predictor == toLowerCase w then p.predictorCollateral.getD 0
         else p.counterpartyCollateral.getD 0)) ∧
    (info.isWinner = false → info.winnings = 0) := by
  obtain ⟨hw, hwin, -, -⟩ := getClaimableInfo_some_spec p w info hsome
  refine ⟨hw, ?_, ?_⟩
  · intro hIW
    rw [hwin, hIW]
    simp
  · intro hIW
    rw [hwin, hIW]
    simp

/-- C2 witness: scenario A (active single matching settled leg, caller
is predictor, total 100, predictor stake 40) is claimable, a win, and
pays 60. -/
theorem claim2_winner_winnings_witness :
    getClaimableInfo scenarioAPos "0xaaa" =
      some ⟨"11", true, 60, "BTC 100k"⟩ ∧
    (⟨"11", true, 60, "BTC 100k"⟩ : ClaimableInfo).winnings =
      scenarioAPos.totalCollateral - scenarioAPos.predictorCollateral.getD 0 := by
  have hsome : getClaimableInfo scenarioAPos "0xaaa" =
      some ⟨"11", true, 60, "BTC 100k"⟩ := by decide
  have h := claim2_winner_winnings scenarioAPos "0xaaa"
    ⟨"11", true, 60, "BTC 100k"⟩ hsome (by decide)
  refine ⟨hsome, ?_⟩
  have hwin := h.2.1 rfl
  rw [hwin]
  decide

/-- C8: under the collateral invariant with non-negative stakes, any
produced ClaimableInfo has non-negative winnings, and a non-winner has
exactly zero winnings. -/
theorem claim8_winnings_nonneg (p : ClaimablePosition) (w : String)
    (info : ClaimableInfo)
    (hinv : p.totalCollateral =
      p.predictorCollateral.getD 0 + p.counterpartyCollateral.getD 0)
    (hpc : 0 ≤ p.predictorCollateral.getD 0)
    (hcc : 0 ≤ p.counterpartyCollateral.getD 0)
    (hsome : getClaimableInfo p w = some info) :
    0 ≤ info.winnings ∧ (info.isWinner = false → info.winnings = 0) := by
  obtain ⟨-, hwin, -, -⟩ := getClaimableInfo_some_spec p w info hsome
  constructor
  · rw [hwin]
    cases hIW : info.isWinner
    · simp
    · simp only [if_true]
      cases hP : toLowerCase p.predictor == toLowerCase w <;> simp <;> omega
  · intro hIW
    rw [hwin, hIW]
    simp

/-- C8 witness at scenario A: 100 = 40 + 60, winnings 60 are
non-negative. -/
theorem claim8_winnings_nonneg_witness :
    0 ≤ (⟨"11", true, 60, "BTC 100k"⟩ : ClaimableInfo).winnings ∧
    ((⟨"11", true, 60, "BTC 100k"⟩ : ClaimableInfo).isWinner = false →
      (⟨"11", true, 60, "BTC 100k"⟩ : ClaimableInfo).winnings = 0) :=
  claim8_winnings_nonneg scenarioAPos "0xaaa" ⟨"11", true, 60, "BTC 100k"⟩
    (by decide) (by decide) (by decide) (by decide)

/-- C10: when both party addresses equal the caller address up to case
and the position is claimable, the caller is treated as the predictor
side: predictor token id, predictor stake in the winnings computation,
and the caller is reported the winner whatever didPredictorWin says. -/
theorem claim10_both_parties (p : ClaimablePosition) (w : String)
    (info : ClaimableInfo)
    (hp : toLowerCase p.predictor = toLowerCase w)
    (hc : toLowerCase p.counterparty = toLowerCase w)
    (hsome : getClaimableInfo p w = some info) :
    info.tokenId = p.predictorNftTokenId ∧ info.isWinner = true ∧
      info.winnings = p.totalCollateral - p.predictorCollateral.getD 0 := by
  obtain ⟨hw, hwin, htok, -⟩ := getClaimableInfo_some_spec p w info hsome
  have hPb : (toLowerCase p.predictor == toLowerCase w) = true := beq_iff_eq.mpr hp
  have hCb : (toLowerCase p.counterparty == toLowerCase w) = true := beq_iff_eq.mpr hc
  rw [hPb] at htok
  simp only [if_true] at htok
  rw [hPb, hCb] at hw
  have hIW : info.isWinner = true := by
    rw [hw]
    cases didPredictorWin p <;> simp
  refine ⟨htok, hIW, ?_⟩
  rw [hwin, hIW]
  simp [hPb]

/-- C10 witness at the position whose two party addresses both equal
the caller up to case. -/
theorem claim10_both_parties_witness :
    (⟨"11", true, 60, "BTC 100k"⟩ : ClaimableInfo).tokenId =
      selfMatchPos.predictorNftTokenId ∧
    (⟨"11", true, 60, "BTC 100k"⟩ : ClaimableInfo).isWinner = true ∧
    (⟨"11", true, 60, "BTC 100k"⟩ : ClaimableInfo).winnings =
      selfMatchPos.totalCollateral - selfMatchPos.predictorCollateral.getD 0 :=
  claim10_both_parties selfMatchPos "0xsame" ⟨"11", true, 60, "BTC 100k"⟩
    (by decide) (by decide) (by decide)

/-- C5: the settlement reader pages with fixed size 100: three pages of
sizes 100, 100, 37 mean exactly 3 requests and 237 accumulated
positions; three full pages of size 100 mean a 4th request; in general
one step of the loop stops exactly when the current page is strictly
shorter than PAGE_SIZE and otherwise issues a further request at the
next skip offset. -/
theorem claim5_pagination (p0 p1 p2 q : List ClaimablePosition)
    (getPage : Nat → List ClaimablePosition) (fuel skip : Nat)
    (h0 : p0.length = 100) (h1 : p1.length = 100) (h2 : p2.length = 37)
    (hq : q.length = 100) :
    fetchAllPositions (pagesAt [p0, p1, p2]) 10 = (p0 ++ p1 ++ p2, 3) ∧
    (p0 ++ p1 ++ p2).length = 237 ∧
    (fetchAllPositions (pagesAt [q, q, q]) 10).2 = 4 ∧
    ((getPage skip).length < PAGE_SIZE →
      fetchPagesLoop getPage (fuel + 1) skip = (getPage skip, 1)) ∧
    (PAGE_SIZE ≤ (getPage skip).length →
      fetchPagesLoop getPage (fuel + 1) skip =
        (getPage skip ++ (fetchPagesLoop getPage fuel (skip + PAGE_SIZE)).1,
         (fetchPagesLoop getPage fuel (skip + PAGE_SIZE)).2 + 1)) := by
  refine ⟨?_, ?_, ?_, ?_, ?_⟩
  · norm_num [fetchAllPositions, fetchPagesLoop, pagesAt, PAGE_SIZE, h0, h1, h2]
  · simp [h0, h1, h2]
  · norm_num [fetchAllPositions, fetchPagesLoop, pagesAt, PAGE_SIZE, hq]
  · intro hlt
    rw [fetchPagesLoop, if_pos hlt]
  · intro hge
    rw [fetchPagesLoop, if_neg (by omega)]

/-- C5 witness: concrete pages of the stated sizes. -/
theorem claim5_pagination_witness :
    fetchAllPositions
        (pagesAt [List.replicate 100 scenarioAPos,
          List.replicate 100 emptyLegsPos, List.replicate 37 noCondPos]) 10 =
      (List.replicate 100 scenarioAPos ++ List.replicate 100 emptyLegsPos ++
        List.replicate 37 noCondPos, 3) ∧
    (fetchAllPositions
        (pagesAt [List.replicate 100 scenarioAPos,
          List.replicate 100 scenarioAPos, List.replicate 100 scenarioAPos]) 10).2 = 4 := by
  have h := claim5_pagination (List.replicate 100 scenarioAPos)
    (List.replicate 100 emptyLegsPos) (List.replicate 37 noCondPos)
    (List.replicate 100 scenarioAPos) (fun _ => []) 0 0
    (by simp) (by simp) (by simp) (by simp)
  exact ⟨h.1, h.2.2.1⟩

/-- C7: the claim loop yields exactly one result per winning entry;
each result carries exactly one of a transaction hash or an error
message; and the result at every index is determined by that entry and
its own submission outcome alone, so one failure never prevents the
later entries from being attempted. -/
theorem claim7_isolated_results (submit : ClaimEntry → Except String String)
    (ws : List ClaimEntry) :
    (runClaims submit ws).length = ws.length ∧
    (runClaims submit ws).all (fun r =>
      (r.txHash.isSome && r.error.isNone) ||
      (r.txHash.isNone && r.error.isSome)) = true ∧
    ∀ i : Nat, (runClaims submit ws)[i]? =
      (ws[i]?).map (fun e => mkClaimResult e (submit e)) := by
  induction ws with
  | nil => simp [runClaims]
  | cons e rest ih =>
    obtain ⟨ihlen, ihall, ihget⟩ := ih
    refine ⟨?_, ?_, ?_⟩
    · simp [runClaims, ihlen]
    · rw [runClaims, List.all_cons, ihall, Bool.and_true]
      cases submit e <;> simp [mkClaimResult]
    · intro i
      cases i with
      | zero => simp [runClaims]
      | succ j => simp [runClaims, ihget]

/-- Helper: the claim loop preserves the count of entries whose
submission outcome is a success with a truthy transaction hash. -/
theorem runClaims_count_ok (submit : ClaimEntry → Except String String)
    (l : List ClaimEntry) :
    ((runClaims submit l).filter (fun r => truthyStr r.txHash)).length =
      (l.filter (fun e => isOkTruthy (submit e))).length := by
  induction l with
  | nil => rfl
  | cons e rest ih =>
    simp only [runClaims, List.filter_cons]
    have hhead : truthyStr (mkClaimResult e (submit e)).txHash =
        isOkTruthy (submit e) := by
      cases submit e with
      | ok tx => simp [mkClaimResult, truthyStr, isOkTruthy]
      | error msg => simp [mkClaimResult, truthyStr, isOkTruthy]
    rw [hhead]
    cases isOkTruthy (submit e) <;> simp [ih]

/-- Helper: the claim loop preserves the count of entries whose
submission outcome is a failure with a truthy error message. -/
theorem runClaims_count_err (submit : ClaimEntry → Except String String)
    (l : List ClaimEntry) :
    ((runClaims submit l).filter (fun r => truthyStr r.error)).length =
      (l.filter (fun e => isErrTruthy (submit e))).length := by
  induction l with
  | nil => rfl
  | cons e rest ih =>
    simp only [runClaims, List.filter_cons]
    have hhead : truthyStr (mkClaimResult e (submit e)).error =
        isErrTruthy (submit e) := by
      cases submit e with
      | ok tx => simp [mkClaimResult, truthyStr, isErrTruthy]
      | error msg => simp [mkClaimResult, truthyStr, isErrTruthy]
    rw [hhead]
    cases isErrTruthy (submit e) <;> simp [ih]

/-- Helper: the reduce over winnings equals the list sum. -/
theorem foldl_winnings_eq_sum (l : List ClaimEntry) (init : Int) :
    l.foldl (fun sum p => sum + p.winnings) init =
      init + (l.map (fun p => p.winnings)).sum := by
  induction l generalizing init with
  | nil => simp
  | cons e rest ih => simp [ih]; ring

/-- C1 counterexample: with three winning positions of winnings 10, 20
and 40 where the third claim submission fails, the summary counts 2
successes and 1 failure, yet reports total winnings 70 = 10 + 20 + 40,
not the sum 30 over the successfully claimed positions. -/
theorem claim1_counterexample :
    (buildClaimSummary threeWinners submitFailThird).successfulClaims = 2 ∧
    (buildClaimSummary threeWinners submitFailThird).failedClaims = 1 ∧
    (((buildClaimSummary threeWinners submitFailThird).results.filter
        (fun r => truthyStr r.txHash)).map (fun r => r.winnings)).sum = 30 ∧
    (buildClaimSummary threeWinners submitFailThird).totalWinnings = 70 ∧
    (buildClaimSummary threeWinners submitFailThird).totalWinnings ≠
      (((buildClaimSummary threeWinners submitFailThird).results.filter
        (fun r => truthyStr r.txHash)).map (fun r => r.winnings)).sum := by
  decide

/-- C1 amended: the reported total winnings equal the sum of winnings
over all winning positions, whether or not their claim submissions
succeed, while successfulClaims and failedClaims count the winning
positions whose submissions succeed (truthy transaction hash) and fail
(truthy error message) respectively. -/
theorem claim1_amended_aggregation (claimable : List ClaimEntry)
    (submit : ClaimEntry → Except String String) :
    (buildClaimSummary claimable submit).totalWinnings =
      ((claimable.filter (fun e => e.isWinner)).map (fun e => e.winnings)).sum ∧
    (buildClaimSummary claimable submit).successfulClaims =
      ((claimable.filter (fun e => e.isWinner)).filter
        (fun e => isOkTruthy (submit e))).length ∧
    (buildClaimSummary claimable submit).failedClaims =
      ((claimable.filter (fun e => e.isWinner)).filter
        (fun e => isErrTruthy (submit e))).length := by
  unfold buildClaimSummary
  refine ⟨?_, ?_, ?_⟩
  · simp [foldl_winnings_eq_sum]
  · simpa using runClaims_count_ok submit (claimable.filter (fun e => e.isWinner))
  · simpa using runClaims_count_err submit (claimable.filter (fun e => e.isWinner))
